import Mathlib

/-!
Shallow embedding of the download-orchestration core of the
`astrbot_plugin_jmcomic_core` repository (`src/core.py`, `src/main.py`).

External collaborators (the `jmcomic` fetch backend, the storage manager in
`utils.py`) are modelled as oracle inputs describing their observable
behaviour at the call sites in `core.py`; the filesystem is modelled as an
explicit value threaded through the operations; every operation additionally
returns the ordered trace of its observable side effects.
-/

namespace JMCosmos

/-- Configuration surface consumed by the core (`CosmosConfig` from `utils.py`,
as used in `core.py`): the ordered endpoint (domain) list, primary first, and
the configured parallelism. -/
structure CosmosConfig where
  domain_list : List String
  max_threads : Nat
deriving DecidableEq, Repr

/-- Modelled from the spec: `ResourceManager.get_pdf_path` lives in `utils.py`,
which is not among the sources; per the spec `DocumentPath(id)` is a
deterministic, pure function of the ID and the configured root
(`<root>/pdfs|documents/<id>.<ext>`), with no filesystem access. -/
def get_pdf_path (album_id : String) : String := "pdfs/" ++ album_id ++ ".pdf"

/-- Modelled from the spec: `ResourceManager.get_cover_path` lives in `utils.py`,
which is not among the sources; per the spec `CoverPath(id)` is a deterministic,
pure function of the ID (`<root>/covers/<id>.jpg`). -/
def get_cover_path (album_id : String) : String := "covers/" ++ album_id ++ ".jpg"

/-- The filesystem slice the core manipulates: each album ID maps to an optional
page folder (the list of file names it contains; absent key = missing folder),
and a flat store of files keyed by path, each holding an ordered list of content
chunks (an assembled document holds its pages in order; a cover holds one
image). -/
structure FS where
  dirs : List (String × List String)
  files : List (String × List String)
deriving DecidableEq, Repr

/-- Writing a file with `open(path, "wb")`: truncates anything previously at the
path and leaves exactly the new content there. -/
def fsWrite (files : List (String × List String)) (p : String) (c : List String) :
    List (String × List String) :=
  (p, c) :: files.filter (fun e => e.1 ≠ p)

/-- `if os.path.exists(p): os.remove(p)` — removes the file at the path if
present; a no-op when absent. -/
def fsRemove (files : List (String × List String)) (p : String) :
    List (String × List String) :=
  files.filter (fun e => e.1 ≠ p)

/-- Observable side effects of one orchestrator call, recorded in order: the
in-flight rejection, each storage-space check, each cleanup pass, each
orchestrator-level fetch attempt (tagged with the domain list the client
configuration used for it is pinned to), each cover fetch, and each document
write. -/
inductive Event where
  | rejectedInFlight
  | checkSpace
  | cleanup
  | fetch (domains : List String)
  | coverFetch
  | convertWrite (path : String)
deriving DecidableEq, Repr

/-- Behaviour of the external `jmcomic.download_album` collaborator during one
`_download_sync` call: the primary attempt either succeeds (`none`) or raises an
exception carrying a message, and the attempt against each fallback domain
either succeeds or raises. -/
structure FetchOracle where
  primary_err : Option String
  fallback_err : String → Option String

/-- The fallback loop of `_download_sync`
(`for domain in self.config.domain_list[1:3]: ...`): try each domain in order,
swallowing failures and stopping at the first success. Returns whether some
attempt succeeded, together with the list of domains actually attempted. -/
def tryFallbacks (ora : FetchOracle) : List String → Bool × List String
  | [] => (false, [])
  | d :: rest =>
    match ora.fallback_err d with
    | none => (true, [d])
    | some _ =>
      let r := tryFallbacks ora rest
      (r.1, d :: r.2)

/-- Python's string comparison as used by `sorted`: lexicographic by code
point, on the character lists. -/
def charListLe : List Char → List Char → Bool
  | [], _ => true
  | _ :: _, [] => false
  | a :: as, b :: bs =>
    if a < b then true
    else if b < a then false
    else charListLe as bs

/-- Python's `s1 <= s2` on strings: lexicographic by code point. -/
def pyStrLe (a b : String) : Bool := charListLe a.data b.data

/-- The `glob("*.jpg")` / `glob("*.png")` membership test: whether a file name
ends with the given literal extension (stated over the character lists). -/
def pyEndsWith (s ext : String) : Bool := ext.data.isSuffixOf s.data

/-- `ComicDownloader._convert_to_pdf`: return if the album folder does not
exist; list the `.jpg` and `.png` files and sort the combined list by name
(Python's `sorted` — a stable ascending sort under `pyStrLe`, modelled by the
stable `insertionSort`, which computes the same result); return if the list is
empty; otherwise write the pages, in sorted order, as one document at the PDF
path (mode `"wb"`, overwriting any prior document). -/
def convert_to_pdf (fs : FS) (album_id : String) : FS × List Event :=
  match fs.dirs.lookup album_id with
  | none => (fs, [])
  | some names =>
    let image_files :=
      List.insertionSort (fun a b => pyStrLe a b = true)
        (names.filter (fun n => pyEndsWith n ".jpg") ++
          names.filter (fun n => pyEndsWith n ".png"))
    if image_files.isEmpty then (fs, [])
    else
      ({ fs with files := fsWrite fs.files (get_pdf_path album_id) image_files },
        [Event.convertWrite (get_pdf_path album_id)])

/-- The fallback endpoints of the failover loop: `self.config.domain_list[1:3]`,
the up-to-two domains after the primary, in declared order. -/
def fallback_domains (config : CosmosConfig) : List String :=
  (config.domain_list.drop 1).take 2

/-- `ComicDownloader._download_sync`: attempt the primary download with the
shared option (whose client is configured with the full domain list); on an
exception, try up to two fallback domains (`domain_list[1:3]`), each with a
freshly created option pinned to that single domain; stop at the first success;
if none succeeds re-raise the original exception. After a successful fetch run
the PDF conversion and return `(True, None)`; the outer handler converts any
exception into `(False, str(e))`. -/
def download_sync (config : CosmosConfig) (ora : FetchOracle) (fs : FS)
    (album_id : String) : (Bool × Option String) × FS × List Event :=
  match ora.primary_err with
  | none =>
    let r := convert_to_pdf fs album_id
    ((true, none), r.1, Event.fetch config.domain_list :: r.2)
  | some e =>
    let t := tryFallbacks ora (fallback_domains config)
    let evs := Event.fetch config.domain_list :: t.2.map (fun d => Event.fetch [d])
    if t.1 then
      let r := convert_to_pdf fs album_id
      ((true, none), r.1, evs ++ r.2)
    else
      ((false, some e), fs, evs)

/-- Behaviour of the collaborators of one `download_comic` call: the result of
`ResourceManager.check_storage_space` before and (if needed) after
`cleanup_old_files`, the fetch backend behaviour, and an optional unexpected
internal exception raised inside the `try` body before any of that (modelling a
crash of a collaborator), which only the `finally` block sees. -/
structure ComicOracle where
  has_space_first : Bool
  has_space_after_cleanup : Bool
  fetch : FetchOracle
  internal_error : Option String

/-- Mutable state of a `ComicDownloader` instance: the two in-flight sets
(represented as lists managed with set semantics) and the filesystem, plus the
worker-pool size fixed at construction. -/
structure DState where
  downloading_comics : List String
  downloading_covers : List String
  pool_size : Nat
  fsys : FS
deriving DecidableEq, Repr

/-- Python `set.add`. -/
def setAdd (s : List String) (x : String) : List String :=
  if x ∈ s then s else x :: s

/-- Python `set.discard`: removes the element when present, no error when
absent. -/
def setDiscard (s : List String) (x : String) : List String :=
  s.filter (fun y => y ≠ x)

/-- Result of one `download_comic` call: a normal return of
`(bool, Optional[str])`, or an exception escaping the call (the `finally` block
having run). -/
inductive CallResult where
  | ret (ok : Bool) (msg : Option String)
  | raised (e : String)
deriving DecidableEq, Repr

/-- The `try` body of `download_comic`: check storage space; if there is no
space, run `cleanup_old_files` once and re-check; if there is still no space
return the capacity failure `(False, "存储空间不足")`; otherwise run
`_download_sync` on the worker pool and return its result. An unexpected
internal exception escapes the body uncaught. -/
def download_comic_body (config : CosmosConfig) (ora : ComicOracle) (st : DState)
    (album_id : String) : CallResult × DState × List Event :=
  match ora.internal_error with
  | some e => (.raised e, st, [])
  | none =>
    if ora.has_space_first then
      let r := download_sync config ora.fetch st.fsys album_id
      (.ret r.1.1 r.1.2, { st with fsys := r.2.1 }, Event.checkSpace :: r.2.2)
    else if ora.has_space_after_cleanup then
      let r := download_sync config ora.fetch st.fsys album_id
      (.ret r.1.1 r.1.2, { st with fsys := r.2.1 },
        Event.checkSpace :: Event.cleanup :: Event.checkSpace :: r.2.2)
    else
      (.ret false (some "存储空间不足"), st,
        [Event.checkSpace, Event.cleanup, Event.checkSpace])

/-- `ComicDownloader.download_comic`: under the lock, return
`(False, "正在下载中")` at once when the ID is already in the comic in-flight
set, otherwise insert it; run the body; in `finally`, under the lock, discard
the ID from the set — on every exit path, exceptional ones included. -/
def download_comic (config : CosmosConfig) (ora : ComicOracle) (st : DState)
    (album_id : String) : CallResult × DState × List Event :=
  if album_id ∈ st.downloading_comics then
    (.ret false (some "正在下载中"), st, [Event.rejectedInFlight])
  else
    let st1 := { st with downloading_comics := setAdd st.downloading_comics album_id }
    let r := download_comic_body config ora st1 album_id
    (r.1,
      { r.2.1 with downloading_comics := setDiscard r.2.1.downloading_comics album_id },
      r.2.2)

/-- Behaviour of the collaborators of one `download_cover` call, in program
order: `get_album_detail` may raise, or return a falsy album;
`get_photo_detail` may raise; `download_by_image_detail` may raise (after the
old cover was already deleted); on success it writes the fresh image bytes. -/
structure CoverOracle where
  get_album_err : Option String
  album_exists : Bool
  get_photo_err : Option String
  download_err : Option String
  image : String
deriving DecidableEq, Repr

/-- The `try/except` body of `download_cover`: fetch the album detail (a raised
exception is caught and returned as `(False, str(e))`, a falsy album returns
`(False, "漫画不存在")`), fetch the cover image detail, delete any pre-existing
cover file at the cover path, then download the fresh image to that path and
return `(True, cover_path)`. -/
def download_cover_body (ora : CoverOracle) (st : DState) (album_id : String) :
    (Bool × String) × DState × List Event :=
  match ora.get_album_err with
  | some e => ((false, e), st, [])
  | none =>
    if !ora.album_exists then ((false, "漫画不存在"), st, [])
    else
      match ora.get_photo_err with
      | some e => ((false, e), st, [])
      | none =>
        let cp := get_cover_path album_id
        let fs1 := { st.fsys with files := fsRemove st.fsys.files cp }
        match ora.download_err with
        | some e => ((false, e), { st with fsys := fs1 }, [])
        | none =>
          ((true, cp),
            { st with fsys := { fs1 with files := fsWrite fs1.files cp [ora.image] } },
            [Event.coverFetch])

/-- `ComicDownloader.download_cover`: return `(False, "封面下载中")` at once
when the ID is already in the cover in-flight set (the comic in-flight set is
not consulted), otherwise add it, run the body, and in `finally` discard it on
every exit path. -/
def download_cover (ora : CoverOracle) (st : DState) (album_id : String) :
    (Bool × String) × DState × List Event :=
  if album_id ∈ st.downloading_covers then
    ((false, "封面下载中"), st, [Event.rejectedInFlight])
  else
    let st1 := { st with downloading_covers := setAdd st.downloading_covers album_id }
    let r := download_cover_body ora st1 album_id
    (r.1,
      { r.2.1 with downloading_covers := setDiscard r.2.1.downloading_covers album_id },
      r.2.2)

/-- `ComicDownloader.__init__`: empty in-flight sets and a thread pool created
with `max_workers = min(config.max_threads, 20)`. -/
def init_downloader (config : CosmosConfig) (fs : FS) : DState :=
  { downloading_comics := []
    downloading_covers := []
    pool_size := min config.max_threads 20
    fsys := fs }

/-- Python `str.isdigit` on ASCII input: non-empty and every character a
decimal digit (stated over the string's character list). -/
def pyIsDigit (s : String) : Bool := !s.data.isEmpty && s.data.all Char.isDigit

/-- Messages the front-end command yields to the user. `sentFile` is the file
transmission step `cmd_download` is written to perform via `_send_file`; no
path of the program ever reaches it, because awaiting the async-generator
`_send_file` raises first (see `await_async_generator_error`). -/
inductive Msg where
  | plain (s : String)
  | sentFile (path : String) (name : String)
deriving DecidableEq, Repr

/-- The exception raised by `await self._send_file(...)` (main.py lines 50 and
62): `_send_file` contains `yield` statements, which makes it an async
generator function, and awaiting an async generator object raises a
`TypeError` at runtime (CPython wording abbreviated). The file is therefore
never transmitted on either send path. -/
def await_async_generator_error : String :=
  "TypeError: object async_generator cannot be awaited"

/-- Outcome of one `cmd_download` invocation: the generator finished normally
having yielded `msgs`, or an exception escaped it after yielding `msgs`. -/
inductive CmdResult where
  | done (msgs : List Msg)
  | crashed (msgs : List Msg) (e : String)
deriving DecidableEq, Repr

/-- `JMCosmosPlugin.cmd_download`: reject a non-numeric ID; announce the
download; if the assembled PDF already exists, announce the cache hit and then
`await self._send_file(...)` — which raises a `TypeError` because `_send_file`
is an async generator function, so the command crashes without touching the
downloader; otherwise call `download_comic` and report failure, success with
the PDF present (announce, then the same crashing `await` of `_send_file`), or
success with the PDF missing (the degraded message). -/
def cmd_download (config : CosmosConfig) (ora : ComicOracle) (st : DState)
    (comic_id : String) : CmdResult × DState × List Event :=
  if !pyIsDigit comic_id then
    (.done [Msg.plain "ID必须为纯数字"], st, [])
  else
    let start := Msg.plain ("开始下载漫画 " ++ comic_id ++ "...")
    let pdf_path := get_pdf_path comic_id
    if (st.fsys.files.lookup pdf_path).isSome then
      (.crashed [start, Msg.plain "检测到缓存，直接发送..."]
        await_async_generator_error, st, [])
    else
      let r := download_comic config ora st comic_id
      match r.1 with
      | .raised e => (.crashed [start] e, r.2.1, r.2.2)
      | .ret ok msg =>
        if !ok then
          (.done [start, Msg.plain ("下载失败: " ++ msg.getD "None")], r.2.1, r.2.2)
        else if ((r.2.1).fsys.files.lookup pdf_path).isSome then
          (.crashed [start, Msg.plain "下载完成，正在发送..."]
            await_async_generator_error, r.2.1, r.2.2)
        else
          (.done [start, Msg.plain "下载完成但PDF生成失败，请检查日志。"], r.2.1, r.2.2)

/-- Whether an event is an orchestrator-level fetch attempt. -/
def isFetchEvent : Event → Bool
  | .fetch _ => true
  | _ => false

/-- The fallback domains the failover loop actually attempts, in order. -/
def tried_fallbacks (config : CosmosConfig) (ora : FetchOracle) : List String :=
  (tryFallbacks ora (fallback_domains config)).2

/-- Whether some attempt of the failover loop succeeded. -/
def fallbacks_succeeded (config : CosmosConfig) (ora : FetchOracle) : Bool :=
  (tryFallbacks ora (fallback_domains config)).1

/-- Concrete configuration used to exercise the definitions. -/
def cfgW : CosmosConfig :=
  { domain_list := ["a.com", "b.com", "c.com", "d.com"], max_threads := 8 }

/-- Concrete filesystem with one album folder. -/
def fsW : FS :=
  { dirs := [("42", ["010.jpg", "001.jpg", "002.png", "x.txt"])], files := [] }

/-- Fetch backend behaviour where every attempt succeeds. -/
def fetchOkW : FetchOracle := { primary_err := none, fallback_err := fun _ => none }

/-- Fetch backend behaviour where the primary and every fallback fail. -/
def fetchFailW : FetchOracle :=
  { primary_err := some "boom", fallback_err := fun _ => some "fb" }

/-- Collaborator behaviour for a fully successful download. -/
def oraOkW : ComicOracle :=
  { has_space_first := true, has_space_after_cleanup := true, fetch := fetchOkW,
    internal_error := none }

/-- Collaborator behaviour where the storage check fails even after cleanup. -/
def oraNoSpaceW : ComicOracle :=
  { has_space_first := false, has_space_after_cleanup := false, fetch := fetchOkW,
    internal_error := none }

/-- Collaborator behaviour raising an unexpected internal exception. -/
def oraPanicW : ComicOracle :=
  { has_space_first := true, has_space_after_cleanup := true, fetch := fetchOkW,
    internal_error := some "crash" }

/-- Collaborator behaviour for a fully successful cover fetch. -/
def coverOkW : CoverOracle :=
  { get_album_err := none, album_exists := true, get_photo_err := none,
    download_err := none, image := "IMG" }

/-- A freshly constructed downloader over `fsW`. -/
def stW : DState := init_downloader cfgW fsW

/-- A state in which album 42 has a comic download in flight. -/
def stBusyW : DState := { stW with downloading_comics := ["42"] }

/-- A state in which album 42 has a cover fetch in flight. -/
def stCoverBusyW : DState := { stW with downloading_covers := ["42"] }

/-- A state holding a stale cover file for album 42. -/
def stStaleW : DState :=
  { stW with fsys := { dirs := [], files := [("covers/42.jpg", ["stale"]), ("keep.txt", ["k"])] } }

/-- A state holding an already-assembled document for album 42. -/
def stPdfW : DState := { stW with fsys := { dirs := [], files := [("pdfs/42.pdf", ["p1"])] } }

/-- A freshly constructed downloader over an empty filesystem. -/
def stEmptyW : DState := init_downloader cfgW { dirs := [], files := [] }

/-! ### Helper lemmas -/

/-- An element is never a member of the set it was just discarded from. -/
theorem not_mem_setDiscard (s : List String) (x : String) : x ∉ setDiscard s x := by
  simp [setDiscard]

/-- Discarding an absent element leaves the set unchanged. -/
theorem setDiscard_of_not_mem {s : List String} {x : String} (h : x ∉ s) :
    setDiscard s x = s := by
  induction s with
  | nil => rfl
  | cons y ys ih =>
    simp only [List.mem_cons, not_or] at h
    simp [setDiscard, h.1, Ne.symm h.1] at ih ⊢
    exact ih h.2

/-- Adding an absent element conses it. -/
theorem setAdd_of_not_mem {s : List String} {x : String} (h : x ∉ s) :
    setAdd s x = x :: s := by
  simp [setAdd, h]

/-- Add-then-discard of an absent element restores the set. -/
theorem setDiscard_setAdd_of_not_mem {s : List String} {x : String} (h : x ∉ s) :
    setDiscard (setAdd s x) x = s := by
  rw [setAdd_of_not_mem h]
  simp [setDiscard]
  have := setDiscard_of_not_mem h
  simpa [setDiscard] using this

/-- `charListLe` is total. -/
theorem charListLe_total : ∀ a b, charListLe a b = true ∨ charListLe b a = true := by
  intro a
  induction a with
  | nil => intro b; left; rfl
  | cons x xs ih =>
    intro b
    cases b with
    | nil => right; rfl
    | cons y ys =>
      by_cases hxy : x < y
      · left; simp [charListLe, hxy]
      · by_cases hyx : y < x
        · right; simp [charListLe, hyx, asymm hyx]
        · rcases ih ys with h | h
          · left; simp [charListLe, hxy, hyx, h]
          · right; simp [charListLe, hxy, hyx, h]

/-- `charListLe` is transitive. -/
theorem charListLe_trans :
    ∀ a b c, charListLe a b = true → charListLe b c = true → charListLe a c = true := by
  intro a
  induction a with
  | nil => intro b c _ _; rfl
  | cons x xs ih =>
    intro b c h1 h2
    cases b with
    | nil => simp [charListLe] at h1
    | cons y ys =>
      cases c with
      | nil => simp [charListLe] at h2
      | cons z zs =>
        by_cases hxy : x < y
        · by_cases hyz : y < z
          · simp [charListLe, lt_trans hxy hyz]
          · by_cases hzy : z < y
            · simp [charListLe, hyz, hzy] at h2
            · have : y = z := le_antisymm (le_of_not_lt hzy) (le_of_not_lt hyz)
              subst this
              simp [charListLe, hxy]
        · by_cases hyx : y < x
          · simp [charListLe, hxy, hyx] at h1
          · have hxey : x = y := le_antisymm (le_of_not_lt hyx) (le_of_not_lt hxy)
            subst hxey
            simp [charListLe, lt_irrefl] at h1
            by_cases hyz : x < z
            · simp [charListLe, hyz]
            · by_cases hzy : z < x
              · simp [charListLe, hyz, hzy] at h2
              · have : x = z := le_antisymm (le_of_not_lt hzy) (le_of_not_lt hyz)
                subst this
                simp [charListLe, lt_irrefl] at h2 ⊢
                exact ih ys zs h1 h2

/-- The sort used by `_convert_to_pdf` yields a list sorted under Python's
string order. -/
theorem sorted_insertionSort_pyStrLe (l : List String) :
    List.Sorted (fun a b => pyStrLe a b = true)
      (List.insertionSort (fun a b => pyStrLe a b = true) l) := by
  have htot : IsTotal String (fun a b => pyStrLe a b = true) :=
    ⟨fun a b => charListLe_total a.data b.data⟩
  have htr : IsTrans String (fun a b => pyStrLe a b = true) :=
    ⟨fun a b c => charListLe_trans a.data b.data c.data⟩
  exact @List.sorted_insertionSort String _ _ htot htr l

/-- Looking up the path just written finds the new content. -/
theorem lookup_fsWrite_self (files : List (String × List String)) (p : String)
    (c : List String) : (fsWrite files p c).lookup p = some c := by
  simp [fsWrite, List.lookup]

/-- After an overwriting write, exactly one entry exists at the written path. -/
theorem length_filter_fsWrite (files : List (String × List String)) (p : String)
    (c : List String) :
    ((fsWrite files p c).filter (fun e => e.1 = p)).length = 1 := by
  have hnil : (files.filter (fun e => e.1 ≠ p)).filter (fun e => e.1 = p) = [] := by
    induction files with
    | nil => rfl
    | cons x xs ih =>
      by_cases h : x.1 = p
      · simp [h, ih]
      · simp [h, List.filter_cons, ih]
  simp [fsWrite, List.filter_cons, hnil]

/-! ### Claim theorems -/

/-- Claim C1: when a download for the album ID is already in flight (the ID is
in the comic in-flight set), a second `download_comic` call for the same ID
returns the `(False, "正在下载中")` ("already in progress") failure at once,
with the state unchanged and a trace containing only the rejection — so no
fetch, no storage-quota check, no cleanup, and no state mutation. -/
theorem download_comic_rejects_inflight (config : CosmosConfig) (ora : ComicOracle)
    (st : DState) (album_id : String) (h : album_id ∈ st.downloading_comics) :
    download_comic config ora st album_id =
      (.ret false (some "正在下载中"), st, [Event.rejectedInFlight]) := by
  simp [download_comic, h]

/-- Witness for C1 at a concrete busy state. -/
theorem download_comic_rejects_inflight_witness :
    ("42" ∈ stBusyW.downloading_comics) ∧
      download_comic cfgW oraOkW stBusyW "42" =
        (.ret false (some "正在下载中"), stBusyW, [Event.rejectedInFlight]) :=
  ⟨by decide, download_comic_rejects_inflight cfgW oraOkW stBusyW "42" (by decide)⟩

/-- Claim C2: on every exit path of `download_comic` other than the dedup
rejection — success, capacity failure, fetch failure, or an unexpected internal
exception, i.e. any oracle behaviour — the ID is absent from the comic
in-flight set after the call returns; the same holds for `download_cover` and
the cover in-flight set. -/
theorem inflight_released_on_every_exit (config : CosmosConfig) (ora : ComicOracle)
    (cora : CoverOracle) (st st' : DState) (album_id : String)
    (h : album_id ∉ st.downloading_comics) (h' : album_id ∉ st'.downloading_covers) :
    album_id ∉ (download_comic config ora st album_id).2.1.downloading_comics ∧
      album_id ∉ (download_cover cora st' album_id).2.1.downloading_covers := by
  constructor
  · unfold download_comic
    rw [if_neg h]
    exact not_mem_setDiscard _ _
  · unfold download_cover
    rw [if_neg h']
    exact not_mem_setDiscard _ _

/-- Witness for C2, exercising the unexpected-internal-exception path of the
comic download and the success path of the cover fetch. -/
theorem inflight_released_on_every_exit_witness :
    ("42" ∉ stW.downloading_comics) ∧ ("42" ∉ stW.downloading_covers) ∧
      ("42" ∉ (download_comic cfgW oraPanicW stW "42").2.1.downloading_comics ∧
        "42" ∉ (download_cover coverOkW stW "42").2.1.downloading_covers) :=
  ⟨by decide, by decide,
    inflight_released_on_every_exit cfgW oraPanicW coverOkW stW stW "42"
      (by decide) (by decide)⟩

/-- On the capacity-failure path (no space before and after cleanup),
`download_comic` returns the capacity error with the state restored and a trace
of exactly check, cleanup, re-check. -/
theorem download_comic_capacity_eq (config : CosmosConfig) (ora : ComicOracle)
    (st : DState) (album_id : String)
    (hin : album_id ∉ st.downloading_comics) (hp : ora.internal_error = none)
    (hs : ora.has_space_first = false) (hc : ora.has_space_after_cleanup = false) :
    download_comic config ora st album_id =
      (.ret false (some "存储空间不足"), st,
        [Event.checkSpace, Event.cleanup, Event.checkSpace]) := by
  unfold download_comic
  rw [if_neg hin]
  simp only [download_comic_body, hp, hs, hc]
  simp [setDiscard_setAdd_of_not_mem hin]

/-- Claim C3: `download_comic` checks storage space before any fetch — the
first traced event of every non-rejected, non-crashing call is the storage
check; when the check reports no space the cleanup pass runs exactly once
followed by a re-check; and when the re-check still reports no space the call
returns the distinct capacity failure `(False, "存储空间不足")` with the state
unchanged and no fetch attempt in its trace. -/
theorem download_comic_quota_gate (config : CosmosConfig) (ora : ComicOracle)
    (st : DState) (album_id : String)
    (hin : album_id ∉ st.downloading_comics) (hp : ora.internal_error = none) :
    ((download_comic config ora st album_id).2.2.head? = some Event.checkSpace) ∧
      (ora.has_space_first = false →
        (download_comic config ora st album_id).2.2.take 3 =
          [Event.checkSpace, Event.cleanup, Event.checkSpace]) ∧
      (ora.has_space_first = false → ora.has_space_after_cleanup = false →
        download_comic config ora st album_id =
          (.ret false (some "存储空间不足"), st,
            [Event.checkSpace, Event.cleanup, Event.checkSpace]) ∧
        (∀ ds, Event.fetch ds ∉ (download_comic config ora st album_id).2.2) ∧
        ((download_comic config ora st album_id).2.2.count Event.cleanup = 1)) := by
  refine ⟨?_, ?_, fun hs hc => ?_⟩
  · unfold download_comic
    rw [if_neg hin]
    simp only [download_comic_body, hp]
    cases hs : ora.has_space_first
    · cases hc : ora.has_space_after_cleanup <;> simp
    · simp
  · intro hs
    unfold download_comic
    rw [if_neg hin]
    simp only [download_comic_body, hp, hs]
    cases hc : ora.has_space_after_cleanup <;> simp
  · have heq := download_comic_capacity_eq config ora st album_id hin hp hs hc
    refine ⟨heq, fun ds => ?_, ?_⟩
    · rw [heq]
      simp
    · rw [heq]
      rfl

/-- Witness for C3 at a concrete state where the storage check fails twice. -/
theorem download_comic_quota_gate_witness :
    ("42" ∉ stW.downloading_comics) ∧ (oraNoSpaceW.internal_error = none) ∧
      download_comic cfgW oraNoSpaceW stW "42" =
        (.ret false (some "存储空间不足"), stW,
          [Event.checkSpace, Event.cleanup, Event.checkSpace]) :=
  ⟨by decide, rfl,
    ((download_comic_quota_gate cfgW oraNoSpaceW stW "42" (by decide) rfl).2.2
      rfl rfl).1⟩

/-- On the fully successful path `download_cover` deletes whatever was at the
cover path and then writes the fresh image there, restoring the in-flight
set. -/
theorem download_cover_success_eq (ora : CoverOracle) (st : DState)
    (album_id : String) (hin : album_id ∉ st.downloading_covers)
    (h1 : ora.get_album_err = none) (h2 : ora.album_exists = true)
    (h3 : ora.get_photo_err = none) (h4 : ora.download_err = none) :
    download_cover ora st album_id =
      ((true, get_cover_path album_id),
        { st with
          fsys := { st.fsys with
            files :=
              fsWrite (fsRemove st.fsys.files (get_cover_path album_id))
                (get_cover_path album_id) [ora.image] } },
        [Event.coverFetch]) := by
  unfold download_cover
  rw [if_neg hin]
  simp only [download_cover_body, h1, h2, h3, h4]
  simp [setDiscard_setAdd_of_not_mem hin]

/-- Claim C7: the cover fetch deletes any pre-existing cover file at the cover
path before writing the new one, so after a successful cover fetch the call
returns the cover path, exactly one cover file exists at that path, and its
content is the freshly downloaded image. -/
theorem download_cover_fresh (ora : CoverOracle) (st : DState) (album_id : String)
    (hin : album_id ∉ st.downloading_covers)
    (h1 : ora.get_album_err = none) (h2 : ora.album_exists = true)
    (h3 : ora.get_photo_err = none) (h4 : ora.download_err = none) :
    (download_cover ora st album_id).1 = (true, get_cover_path album_id) ∧
      (download_cover ora st album_id).2.1.fsys.files =
        fsWrite (fsRemove st.fsys.files (get_cover_path album_id))
          (get_cover_path album_id) [ora.image] ∧
      (download_cover ora st album_id).2.1.fsys.files.lookup
        (get_cover_path album_id) = some [ora.image] ∧
      ((download_cover ora st album_id).2.1.fsys.files.filter
        (fun e => e.1 = get_cover_path album_id)).length = 1 := by
  have heq := download_cover_success_eq ora st album_id hin h1 h2 h3 h4
  rw [heq]
  exact ⟨rfl, rfl, lookup_fsWrite_self _ _ _, length_filter_fsWrite _ _ _⟩

/-- Witness for C7 at a concrete state holding a stale cover. -/
theorem download_cover_fresh_witness :
    ("42" ∉ stStaleW.downloading_covers) ∧
      (download_cover coverOkW stStaleW "42").1 = (true, get_cover_path "42") ∧
      (download_cover coverOkW stStaleW "42").2.1.fsys.files.lookup
        (get_cover_path "42") = some ["IMG"] ∧
      ((download_cover coverOkW stStaleW "42").2.1.fsys.files.filter
        (fun e => e.1 = get_cover_path "42")).length = 1 :=
  ⟨by decide,
    (download_cover_fresh coverOkW stStaleW "42" (by decide) rfl rfl rfl rfl).1,
    (download_cover_fresh coverOkW stStaleW "42" (by decide) rfl rfl rfl rfl).2.2.1,
    (download_cover_fresh coverOkW stStaleW "42" (by decide) rfl rfl rfl rfl).2.2.2⟩

/-- Claim C5: when the album folder exists and holds at least one page image
file, `_convert_to_pdf` writes exactly one output document at the deterministic
document path for the ID — overwriting any prior document there — whose content
is the page files sorted by filename in ascending lexical order. -/
theorem convert_to_pdf_sorted_write (fs : FS) (album_id : String)
    (names : List String) (h : fs.dirs.lookup album_id = some names)
    (hne : names.filter (fun n => pyEndsWith n ".jpg") ++
        names.filter (fun n => pyEndsWith n ".png") ≠ []) :
    convert_to_pdf fs album_id =
      ({ fs with
          files :=
            fsWrite fs.files (get_pdf_path album_id)
              (List.insertionSort (fun a b => pyStrLe a b = true)
                (names.filter (fun n => pyEndsWith n ".jpg") ++
                  names.filter (fun n => pyEndsWith n ".png"))) },
        [Event.convertWrite (get_pdf_path album_id)]) ∧
      (∀ pages,
        (convert_to_pdf fs album_id).1.files.lookup (get_pdf_path album_id) =
            some pages →
          List.Sorted (fun a b => pyStrLe a b = true) pages ∧
            pages.Perm (names.filter (fun n => pyEndsWith n ".jpg") ++
              names.filter (fun n => pyEndsWith n ".png"))) ∧
      ((convert_to_pdf fs album_id).1.files.filter
        (fun e => e.1 = get_pdf_path album_id)).length = 1 ∧
      (convert_to_pdf fs album_id).2 =
        [Event.convertWrite (get_pdf_path album_id)] := by
  have hperm := List.perm_insertionSort (fun a b => pyStrLe a b = true)
    (names.filter (fun n => pyEndsWith n ".jpg") ++
      names.filter (fun n => pyEndsWith n ".png"))
  have hsne : List.insertionSort (fun a b => pyStrLe a b = true)
      (names.filter (fun n => pyEndsWith n ".jpg") ++
        names.filter (fun n => pyEndsWith n ".png")) ≠ [] := by
    intro h0
    apply hne
    have hlen := hperm.length_eq
    rw [h0] at hlen
    exact List.eq_nil_of_length_eq_zero hlen.symm
  have heq : convert_to_pdf fs album_id =
      ({ fs with
          files :=
            fsWrite fs.files (get_pdf_path album_id)
              (List.insertionSort (fun a b => pyStrLe a b = true)
                (names.filter (fun n => pyEndsWith n ".jpg") ++
                  names.filter (fun n => pyEndsWith n ".png"))) },
        [Event.convertWrite (get_pdf_path album_id)]) := by
    unfold convert_to_pdf
    rw [h]
    dsimp only
    rw [if_neg (by simpa [List.isEmpty_iff] using hsne)]
  refine ⟨heq, fun pages hl => ?_, ?_, ?_⟩
  · rw [heq] at hl
    dsimp only at hl
    rw [lookup_fsWrite_self] at hl
    cases hl
    exact ⟨sorted_insertionSort_pyStrLe _, hperm⟩
  · rw [heq]
    exact length_filter_fsWrite _ _ _
  · rw [heq]

/-- Witness for C5 on a concrete folder with out-of-order page files. -/
theorem convert_to_pdf_sorted_write_witness :
    (fsW.dirs.lookup "42" = some ["010.jpg", "001.jpg", "002.png", "x.txt"]) ∧
      ((["010.jpg", "001.jpg", "002.png", "x.txt"].filter
          (fun n => pyEndsWith n ".jpg") ++
        ["010.jpg", "001.jpg", "002.png", "x.txt"].filter
          (fun n => pyEndsWith n ".png")) ≠ []) ∧
      (convert_to_pdf fsW "42").2 = [Event.convertWrite (get_pdf_path "42")] :=
  ⟨by decide, by decide,
    (convert_to_pdf_sorted_write fsW "42" ["010.jpg", "001.jpg", "002.png", "x.txt"]
      (by decide) (by decide)).2.2.2⟩

/-- Assembly is a no-op when the album folder is missing or holds no page
image files. -/
theorem convert_to_pdf_noop (fs : FS) (album_id : String)
    (h : fs.dirs.lookup album_id = none ∨
      ∃ names, fs.dirs.lookup album_id = some names ∧
        names.filter (fun n => pyEndsWith n ".jpg") ++
          names.filter (fun n => pyEndsWith n ".png") = []) :
    convert_to_pdf fs album_id = (fs, []) := by
  unfold convert_to_pdf
  rcases h with h | ⟨names, h, hemp⟩
  · rw [h]
  · rw [h]
    dsimp only
    rw [hemp]
    simp

/-- Claim C6: when the fetch succeeds but the album's page directory is missing
or holds no page image files, the assembly step performs no write and is
treated as a no-op rather than an error: `download_comic` still returns success
`(True, None)`, and `cmd_download` surfaces the degraded
"下载完成但PDF生成失败" message to the caller instead of a failure. -/
theorem empty_album_degraded_success (config : CosmosConfig) (ora : ComicOracle)
    (st : DState) (comic_id : String)
    (hdig : pyIsDigit comic_id = true)
    (hin : comic_id ∉ st.downloading_comics)
    (hpdf : st.fsys.files.lookup (get_pdf_path comic_id) = none)
    (hp : ora.internal_error = none)
    (hs : ora.has_space_first = true)
    (hf : ora.fetch.primary_err = none)
    (hdeg : st.fsys.dirs.lookup comic_id = none ∨
      ∃ names, st.fsys.dirs.lookup comic_id = some names ∧
        names.filter (fun n => pyEndsWith n ".jpg") ++
          names.filter (fun n => pyEndsWith n ".png") = []) :
    convert_to_pdf st.fsys comic_id = (st.fsys, []) ∧
      download_comic config ora st comic_id =
        (.ret true none, st, [Event.checkSpace, Event.fetch config.domain_list]) ∧
      cmd_download config ora st comic_id =
        (.done [Msg.plain ("开始下载漫画 " ++ comic_id ++ "..."),
            Msg.plain "下载完成但PDF生成失败，请检查日志。"], st,
          [Event.checkSpace, Event.fetch config.domain_list]) := by
  have hconv := convert_to_pdf_noop st.fsys comic_id hdeg
  have hdl : download_comic config ora st comic_id =
      (.ret true none, st, [Event.checkSpace, Event.fetch config.domain_list]) := by
    unfold download_comic
    rw [if_neg hin]
    simp only [download_comic_body, hp, hs]
    unfold download_sync
    rw [hf]
    dsimp only
    rw [hconv]
    simp [setDiscard_setAdd_of_not_mem hin]
  refine ⟨hconv, hdl, ?_⟩
  unfold cmd_download
  rw [hdl]
  simp [hdig, hpdf]

/-- Witness for C6 over an empty filesystem with a successful fetch. -/
theorem empty_album_degraded_success_witness :
    (pyIsDigit "42" = true) ∧ ("42" ∉ stEmptyW.downloading_comics) ∧
      (stEmptyW.fsys.files.lookup (get_pdf_path "42") = none) ∧
      (stEmptyW.fsys.dirs.lookup "42" = none) ∧
      cmd_download cfgW oraOkW stEmptyW "42" =
        (.done [Msg.plain "开始下载漫画 42...",
            Msg.plain "下载完成但PDF生成失败，请检查日志。"], stEmptyW,
          [Event.checkSpace, Event.fetch cfgW.domain_list]) :=
  ⟨by decide, by decide, rfl, rfl,
    (empty_album_degraded_success cfgW oraOkW stEmptyW "42" (by decide) (by decide)
      rfl rfl rfl rfl (Or.inl rfl)).2.2⟩

/-- The PDF conversion never emits an in-flight rejection. -/
theorem rejected_not_in_convert (fs : FS) (aid : String) :
    Event.rejectedInFlight ∉ (convert_to_pdf fs aid).2 := by
  unfold convert_to_pdf
  cases fs.dirs.lookup aid with
  | none => simp
  | some names =>
    dsimp only
    split <;> simp

/-- `_download_sync` never emits an in-flight rejection. -/
theorem rejected_not_in_sync (config : CosmosConfig) (ora : FetchOracle) (fs : FS)
    (aid : String) :
    Event.rejectedInFlight ∉ (download_sync config ora fs aid).2.2 := by
  unfold download_sync
  cases ora.primary_err with
  | none =>
    have := rejected_not_in_convert fs aid
    simp_all
  | some e =>
    dsimp only
    split
    · have := rejected_not_in_convert fs aid
      simp_all [List.mem_append, List.mem_map]
    · simp [List.mem_map]

/-- The body of `download_comic` never emits an in-flight rejection. -/
theorem rejected_not_in_comic_body (config : CosmosConfig) (ora : ComicOracle)
    (st : DState) (aid : String) :
    Event.rejectedInFlight ∉ (download_comic_body config ora st aid).2.2 := by
  unfold download_comic_body
  cases ora.internal_error with
  | some e => simp
  | none =>
    dsimp only
    split
    · have := rejected_not_in_sync config ora.fetch st.fsys aid
      simp_all
    · split
      · have := rejected_not_in_sync config ora.fetch st.fsys aid
        simp_all
      · simp

/-- The body of `download_cover` never emits an in-flight rejection. -/
theorem rejected_not_in_cover_body (ora : CoverOracle) (st : DState)
    (aid : String) :
    Event.rejectedInFlight ∉ (download_cover_body ora st aid).2.2 := by
  unfold download_cover_body
  cases ora.get_album_err with
  | some e => simp
  | none =>
    dsimp only
    split
    · simp
    · cases ora.get_photo_err with
      | some e => simp
      | none =>
        dsimp only
        cases ora.download_err with
        | some e => simp
        | none => simp

/-- Claim C8: the cover-fetch path and the comic-fetch path use disjoint
in-flight sets keyed by album ID: membership of the ID in the comic in-flight
set never causes the cover fetch for that ID to be rejected, and membership in
the cover in-flight set never causes the comic download for that ID to be
rejected. -/
theorem inflight_sets_disjoint (config : CosmosConfig) (ora : ComicOracle)
    (cora : CoverOracle) (st st' : DState) (album_id : String)
    (h1 : album_id ∈ st.downloading_comics) (h2 : album_id ∉ st.downloading_covers)
    (h3 : album_id ∈ st'.downloading_covers) (h4 : album_id ∉ st'.downloading_comics) :
    Event.rejectedInFlight ∉ (download_cover cora st album_id).2.2 ∧
      Event.rejectedInFlight ∉ (download_comic config ora st' album_id).2.2 := by
  constructor
  · unfold download_cover
    rw [if_neg h2]
    exact rejected_not_in_cover_body cora _ album_id
  · unfold download_comic
    rw [if_neg h4]
    exact rejected_not_in_comic_body config ora _ album_id

/-- Witness for C8 with album 42 busy in one set and free in the other. -/
theorem inflight_sets_disjoint_witness :
    ("42" ∈ stBusyW.downloading_comics) ∧ ("42" ∉ stBusyW.downloading_covers) ∧
      ("42" ∈ stCoverBusyW.downloading_covers) ∧
      ("42" ∉ stCoverBusyW.downloading_comics) ∧
      (Event.rejectedInFlight ∉ (download_cover coverOkW stBusyW "42").2.2 ∧
        Event.rejectedInFlight ∉ (download_comic cfgW oraOkW stCoverBusyW "42").2.2) :=
  ⟨by decide, by decide, by decide, by decide,
    inflight_sets_disjoint cfgW oraOkW coverOkW stBusyW stCoverBusyW "42"
      (by decide) (by decide) (by decide) (by decide)⟩

/-- Claim C9: the worker pool executing blocking fetch/assembly work is created
with size `min(config.max_threads, 20)`, and therefore never exceeds the hard
ceiling of 20 whatever the configured parallelism. -/
theorem pool_size_capped (config : CosmosConfig) (fs : FS) :
    (init_downloader config fs).pool_size = min config.max_threads 20 ∧
      (init_downloader config fs).pool_size ≤ 20 :=
  ⟨rfl, min_le_right _ _⟩

/-- Counterexample to claim C10 as stated: at a concrete numeric ID with a
cached document, `cmd_download` does not send the cached document and finish
normally — awaiting the async-generator `_send_file` raises a `TypeError`, so
the command crashes right after yielding the cache-hit message and the
`sentFile` step is never reached. -/
theorem cmd_download_cache_hit_counterexample :
    cmd_download cfgW oraOkW stPdfW "42" ≠
      (.done [Msg.plain "开始下载漫画 42...", Msg.plain "检测到缓存，直接发送...",
          Msg.sentFile (get_pdf_path "42") ("42" ++ ".pdf")], stPdfW, []) ∧
      cmd_download cfgW oraOkW stPdfW "42" =
        (.crashed [Msg.plain "开始下载漫画 42...",
            Msg.plain "检测到缓存，直接发送..."]
          await_async_generator_error, stPdfW, []) :=
  ⟨by decide, by decide⟩

/-- Claim C10 as amended: for a numeric album ID whose assembled document
already exists, `cmd_download` short-circuits on the cache without ever
invoking the download operation — the state is unchanged and the trace empty,
so no fetch, no quota check or cleanup, and no in-flight mutation occurs, and
the result does not depend on the oracle at all — but it does not send the
cached document: after yielding the start and cache-hit messages, the
`await self._send_file(...)` raises a `TypeError` (since `_send_file` is an
async generator function) and the command crashes instead of returning. -/
theorem cmd_download_cache_hit_crashes (config : CosmosConfig) (ora : ComicOracle)
    (st : DState) (comic_id : String) (c : List String)
    (hdig : pyIsDigit comic_id = true)
    (hpdf : st.fsys.files.lookup (get_pdf_path comic_id) = some c) :
    cmd_download config ora st comic_id =
      (.crashed [Msg.plain ("开始下载漫画 " ++ comic_id ++ "..."),
          Msg.plain "检测到缓存，直接发送..."]
        await_async_generator_error, st, []) := by
  simp [cmd_download, hdig, hpdf]

/-- The fallback loop attempts an order-preserving prefix of the given
domains. -/
theorem tryFallbacks_take (ora : FetchOracle) :
    ∀ l : List String, (tryFallbacks ora l).2 = l.take (tryFallbacks ora l).2.length := by
  intro l
  induction l with
  | nil => rfl
  | cons d rest ih =>
    cases h : ora.fallback_err d with
    | none => simp [tryFallbacks, h]
    | some e =>
      simp only [tryFallbacks, h, List.length_cons, List.take_succ_cons]
      exact congrArg (d :: ·) ih

/-- The fallback loop attempts no more domains than it is given. -/
theorem tryFallbacks_length_le (ora : FetchOracle) :
    ∀ l : List String, (tryFallbacks ora l).2.length ≤ l.length := by
  intro l
  induction l with
  | nil => exact Nat.le_refl 0
  | cons d rest ih =>
    cases h : ora.fallback_err d with
    | none => simp [tryFallbacks, h]
    | some e =>
      simp only [tryFallbacks, h, List.length_cons]
      exact Nat.succ_le_succ ih

/-- Every attempted fallback before the last one failed — the loop stops at
the first success. -/
theorem tryFallbacks_dropLast_fail (ora : FetchOracle) :
    ∀ l : List String, ∀ d ∈ (tryFallbacks ora l).2.dropLast,
      ora.fallback_err d ≠ none := by
  intro l
  induction l with
  | nil => intro d hd; simp [tryFallbacks] at hd
  | cons x rest ih =>
    intro d hd
    cases h : ora.fallback_err x with
    | none => simp [tryFallbacks, h] at hd
    | some e =>
      simp only [tryFallbacks, h] at hd
      cases hr : (tryFallbacks ora rest).2 with
      | nil => rw [hr] at hd; simp at hd
      | cons y ys =>
        rw [hr] at hd
        rw [List.dropLast_cons₂] at hd
        rcases List.mem_cons.mp hd with rfl | hd'
        · simp [h]
        · exact ih d (by rw [hr]; exact hd')

/-- When every given domain fails, the loop fails after attempting all of
them. -/
theorem tryFallbacks_all_fail (ora : FetchOracle) :
    ∀ l : List String, (∀ d ∈ l, ora.fallback_err d ≠ none) →
      (tryFallbacks ora l).1 = false ∧ (tryFallbacks ora l).2 = l := by
  intro l
  induction l with
  | nil => intro _; exact ⟨rfl, rfl⟩
  | cons x rest ih =>
    intro hall
    cases h : ora.fallback_err x with
    | none => exact absurd h (hall x (List.mem_cons_self x rest))
    | some e =>
      have hr := ih (fun d hd => hall d (List.mem_cons_of_mem x hd))
      simp [tryFallbacks, h, hr.1, hr.2]

/-- The PDF conversion emits no fetch attempt. -/
theorem convert_trace_no_fetch (fs : FS) (aid : String) :
    (convert_to_pdf fs aid).2.filter isFetchEvent = [] := by
  unfold convert_to_pdf
  cases fs.dirs.lookup aid with
  | none => rfl
  | some names =>
    dsimp only
    split <;> simp [isFetchEvent]

/-- Fallback-attempt events all pass the fetch-event filter. -/
theorem filter_fetch_map (l : List String) :
    (l.map (fun d => Event.fetch [d])).filter isFetchEvent =
      l.map (fun d => Event.fetch [d]) := by
  induction l with
  | nil => rfl
  | cons x xs ih => simp [isFetchEvent, ih]

/-- The fallback domain list holds at most two domains. -/
theorem fallback_domains_length_le (config : CosmosConfig) :
    (fallback_domains config).length ≤ 2 := by
  unfold fallback_domains
  rw [List.length_take]
  exact min_le_left _ _

/-- Claim C4: `_download_sync` attempts the primary endpoint configuration
first (the head of its trace is the attempt pinned to the full declared domain
list); on a primary failure it iterates at most the next two fallback
endpoints in declared order, each attempt pinned to that single endpoint,
stopping at the first success, for at most 3 orchestrator-level attempts in
total; and when every fallback also fails the surfaced error is the original
primary error. -/
theorem download_sync_failover (config : CosmosConfig) (ora : FetchOracle)
    (fs : FS) (album_id : String) :
    (((download_sync config ora fs album_id).2.2.filter isFetchEvent).length ≤ 3) ∧
      ((download_sync config ora fs album_id).2.2.head? =
        some (Event.fetch config.domain_list)) ∧
      (ora.primary_err = none →
        (download_sync config ora fs album_id).2.2.filter isFetchEvent =
          [Event.fetch config.domain_list] ∧
        (download_sync config ora fs album_id).1 = (true, none)) ∧
      (∀ e, ora.primary_err = some e →
        ((download_sync config ora fs album_id).2.2.filter isFetchEvent =
          Event.fetch config.domain_list ::
            (tried_fallbacks config ora).map (fun d => Event.fetch [d])) ∧
        (tried_fallbacks config ora =
          (fallback_domains config).take (tried_fallbacks config ora).length) ∧
        (∀ d ∈ (tried_fallbacks config ora).dropLast, ora.fallback_err d ≠ none) ∧
        (fallbacks_succeeded config ora = true →
          (download_sync config ora fs album_id).1 = (true, none)) ∧
        ((∀ d ∈ fallback_domains config, ora.fallback_err d ≠ none) →
          (download_sync config ora fs album_id).1 = (false, some e))) := by
  have hconvf := convert_trace_no_fetch fs album_id
  have htried : (tried_fallbacks config ora).length ≤ 2 :=
    Nat.le_trans (tryFallbacks_length_le ora (fallback_domains config))
      (fallback_domains_length_le config)
  cases hp : ora.primary_err with
  | none =>
    unfold download_sync
    rw [hp]
    dsimp only
    refine ⟨?_, ?_, fun _ => ⟨?_, rfl⟩, fun e he => Option.noConfusion he⟩
    · simp [List.filter_cons, isFetchEvent, hconvf]
    · simp
    · simp [List.filter_cons, isFetchEvent, hconvf]
  | some e0 =>
    unfold download_sync
    rw [hp]
    dsimp only
    cases ht : (tryFallbacks ora (fallback_domains config)).1 with
    | true =>
      rw [if_pos rfl]
      refine ⟨?_, ?_, fun hnone => Option.noConfusion hnone, fun e he => ?_⟩
      · simp [List.cons_append, List.filter_cons, isFetchEvent,
          List.filter_append, hconvf, filter_fetch_map]
        have h2 : (tryFallbacks ora (fallback_domains config)).2.length ≤ 2 := htried
        omega
      · rfl
      · injection he with he0
        subst he0
        refine ⟨?_, tryFallbacks_take ora _, tryFallbacks_dropLast_fail ora _,
          fun _ => rfl, fun hall => ?_⟩
        · simp [List.filter_cons, isFetchEvent, List.filter_append, hconvf,
            filter_fetch_map, tried_fallbacks]
        · have hcontr := (tryFallbacks_all_fail ora (fallback_domains config) hall).1
          rw [ht] at hcontr
          cases hcontr
    | false =>
      rw [if_neg (by simp)]
      refine ⟨?_, ?_, fun hnone => Option.noConfusion hnone, fun e he => ?_⟩
      · simp [List.filter_cons, isFetchEvent, filter_fetch_map]
        have h2 : (tryFallbacks ora (fallback_domains config)).2.length ≤ 2 := htried
        omega
      · rfl
      · injection he with he0
        subst he0
        refine ⟨?_, tryFallbacks_take ora _, tryFallbacks_dropLast_fail ora _,
          fun hsucc => ?_, fun _ => rfl⟩
        · simp [List.filter_cons, isFetchEvent, filter_fetch_map, tried_fallbacks]
        · unfold fallbacks_succeeded at hsucc
          rw [ht] at hsucc
          cases hsucc

/-- Witness for C4: a failing primary with all fallbacks failing surfaces the
original primary error after exactly three pinned attempts. -/
theorem download_sync_failover_witness :
    (fetchFailW.primary_err = some "boom") ∧
      (∀ d ∈ fallback_domains cfgW, fetchFailW.fallback_err d ≠ none) ∧
      (download_sync cfgW fetchFailW fsW "42").1 = (false, some "boom") :=
  ⟨rfl, by decide,
    (((download_sync_failover cfgW fetchFailW fsW "42").2.2.2 "boom" rfl).2.2.2.2)
      (by decide)⟩

/-- Witness for the amended C10 at a concrete state holding a cached
document, under an oracle that would fail the quota check were it consulted. -/
theorem cmd_download_cache_hit_crashes_witness :
    (pyIsDigit "42" = true) ∧
      (stPdfW.fsys.files.lookup (get_pdf_path "42") = some ["p1"]) ∧
      cmd_download cfgW oraNoSpaceW stPdfW "42" =
        (.crashed [Msg.plain "开始下载漫画 42...",
            Msg.plain "检测到缓存，直接发送..."]
          await_async_generator_error, stPdfW, []) :=
  ⟨by decide, by decide,
    cmd_download_cache_hit_crashes cfgW oraNoSpaceW stPdfW "42" ["p1"]
      (by decide) (by decide)⟩

end JMCosmos
